import Mathlib

/-!
Verification of the AEC3 `Subtractor` core
(`modules/audio_processing/aec3/subtractor.cc`).

The C++ is shallowly embedded: float samples become rationals (`ℚ`),
fixed-size sample arrays become functions out of `Fin`, and the external
collaborators (FFT, adaptive filters, gain computers, render buffer) that
the spec declares out of scope are abstract operation records passed in as
parameters, so that every theorem quantifies over their behaviour.
-/

namespace Aec3

/-- Modelled from the spec: the fixed system block size
(`kBlockSize` from the AEC3 common header, which is not part of the
excerpt).  The spec fixes it at 64 samples and makes the FFT buffer
2×block-size with block-size+1 spectral bins, which forces
`kFftLengthBy2 = kBlockSize`. -/
def kBlockSize : ℕ := 64

/-- Modelled from the spec: half the FFT length, equal to the block size. -/
def kFftLengthBy2 : ℕ := kBlockSize

/-- Modelled from the spec: the FFT buffer length, 2×block-size. -/
def kFftLength : ℕ := 2 * kFftLengthBy2

/-- Modelled from the spec: number of spectral bins, block-size + 1. -/
def kFftLengthBy2Plus1 : ℕ := kFftLengthBy2 + 1

/-- A time-domain audio block: `std::array<float, kBlockSize>`. -/
def Block : Type := Fin kBlockSize → ℚ

/-- A 2×block-size time buffer: `std::array<float, kFftLength>`. -/
def FftBuf : Type := Fin kFftLength → ℚ

/-- Modelled from the spec: `FftData` (header not in the excerpt), a pair of
per-bin sequences of reals, block-size+1 bins each. -/
structure FftData where
  re : Fin kFftLengthBy2Plus1 → ℚ
  im : Fin kFftLengthBy2Plus1 → ℚ
deriving DecidableEq

/-- A per-bin power spectrum: `std::array<float, kFftLengthBy2Plus1>`. -/
def PowerSpec : Type := Fin kFftLengthBy2Plus1 → ℚ

/-- Modelled from the spec: `FftData::Spectrum` (header not in the excerpt)
computes the per-bin squared magnitude. -/
def fftSpectrum (X : FftData) : PowerSpec :=
  fun k => X.re k * X.re k + X.im k * X.im k

/-- Window kinds accepted by `Aec3Fft::ZeroPaddedFft`. -/
inductive Window where
  | kHanning
  | kRectangular
deriving DecidableEq

/-- The frequency-transform collaborator (`Aec3Fft`), out of scope per the
spec: a deterministic, stateless inverse transform producing a 2×block-size
time buffer, and a windowed zero-padded forward transform. -/
structure Aec3Fft where
  Ifft : FftData → FftBuf
  ZeroPaddedFft : Block → Window → FftData

/-- Modelled from the spec: `rtc::SafeClamp(a, lo, hi)`
(`safe_minmax.h` is not in the excerpt) clips `a` to the closed
range `[lo, hi]`. -/
def SafeClamp (a lo hi : ℚ) : ℚ :=
  if a < lo then lo else if hi < a then hi else a

/-- The scale applied to the second half of the inverse-transform buffer:
`kScale = 1.0f / kFftLengthBy2` in `PredictionError`. -/
def kScale : ℚ := 1 / (kFftLengthBy2 : ℚ)

/-- Index of sample `i` of the second half of the 2×block-size buffer. -/
def secondHalf (i : Fin kBlockSize) : Fin kFftLength :=
  ⟨i.1 + kFftLengthBy2, by
    have h := i.2
    simp only [kFftLength, kFftLengthBy2, kBlockSize] at *
    omega⟩

/-- `PredictionError(fft, S, y, e, s)` from `subtractor.cc`:
inverse-transform `S`, form `e[i] = y[i] - tmp[i + kFftLengthBy2] * kScale`,
optionally emit `s[k] = kScale * tmp[k + kFftLengthBy2]` (when the `s`
pointer is non-null, here `want_s = true`), then clamp every sample of `e`
to `[-32768, 32767]` in place.  Returns the clipped `e` and the optional
`s`. -/
def PredictionError (fft : Aec3Fft) (S : FftData) (y : Block)
    (want_s : Bool) : Block × Option Block :=
  let tmp : FftBuf := fft.Ifft S
  let e0 : Block := fun i => y i - tmp (secondHalf i) * kScale
  let s : Option Block :=
    if want_s then some (fun k => kScale * tmp (secondHalf k)) else none
  let e : Block := fun i => SafeClamp (e0 i) (-32768) 32767
  (e, s)

/-- Modelled from the spec: the delay-adjustment categories of
`EchoPathVariability` (header not in the excerpt): buffer flush, delay
reset, newly detected delay, buffer readjustment, or none. -/
inductive DelayAdjustment where
  | kNone
  | kBufferFlush
  | kDelayReset
  | kNewDetectedDelay
  | kBufferReadjustment
deriving DecidableEq

/-- Modelled from the spec: the echo-path-variability classification
consumed by `HandleEchoPathChange`; the subtractor reads only its
delay-change category. -/
structure EchoPathVariability where
  delay_change : DelayAdjustment
deriving DecidableEq

/-- Modelled from the spec: the per-block `SubtractorOutput` record (header
not in the excerpt).  Field list follows the spec's data model, which
includes a slot for the shadow filter's windowed error spectrum
(`E_shadow`); the fields `Process` writes are those its code mentions. -/
structure SubtractorOutput where
  s_main : Block
  e_main : Block
  e_shadow : Block
  E_main : FftData
  E_main_nonwindowed : FftData
  E_shadow : FftData
  E2_main : PowerSpec
  E2_main_nonwindowed : PowerSpec
  E2_shadow : PowerSpec

/-- The render-history collaborator (`RenderBuffer`), out of scope per the
spec: this core only queries its partition-count-dependent power-spectrum
sum, and hands it opaquely to the filters. -/
structure RenderBuffer where
  SpectralSum : ℕ → PowerSpec

/-- The adaptive-filter collaborator (`AdaptiveFirFilter`), out of scope
per the spec: predict, adapt, reset, and partition count, acting on an
opaque state type `σ`. -/
structure FilterOps (σ : Type) where
  Filter : σ → RenderBuffer → FftData
  Adapt : σ → RenderBuffer → FftData → σ
  HandleEchoPathChange : σ → σ
  SizePartitions : σ → ℕ

/-- The main gain-computer collaborator (`MainFilterUpdateGain`), out of
scope per the spec: computes a gain matrix from the power-spectrum sum, the
render analyzer, the full output record, the main filter and the
saturation flag, updating its own opaque state `γ`; its reset takes the
path-variability context. -/
structure MainGainOps (γ σm α : Type) where
  Compute : γ → PowerSpec → α → SubtractorOutput → σm → Bool → γ × FftData
  HandleEchoPathChange : γ → EchoPathVariability → γ

/-- The shadow gain-computer collaborator (`ShadowFilterUpdateGain`), out
of scope per the spec: computes a gain matrix from the power-spectrum sum,
the render analyzer, the shadow error spectrum, the shadow partition count
and the saturation flag; its reset takes no context. -/
structure ShadowGainOps (γ α : Type) where
  Compute : γ → PowerSpec → α → FftData → ℕ → Bool → γ × FftData
  HandleEchoPathChange : γ → γ

/-- The collaborator bundle a `Subtractor` instance is wired to:
the transform, both filters' operations and both gain computers'
operations.  `α` is the opaque type of the render-signal analyzer. -/
structure SubtractorOps (σm σs γm γs α : Type) where
  fft : Aec3Fft
  main : FilterOps σm
  shadow : FilterOps σs
  G_main : MainGainOps γm σm α
  G_shadow : ShadowGainOps γs α

/-- The `Subtractor`'s mutable state: both filter states, both gain
computer states, and the sticky convergence flag. -/
structure Subtractor (σm σs γm γs : Type) where
  main_filter_ : σm
  shadow_filter_ : σs
  G_main_ : γm
  G_shadow_ : γs
  converged_filter_ : Bool

/-- `Subtractor::HandleEchoPathChange` from `subtractor.cc`: the four
"changed" delay categories each trigger the same `full_reset` (reset both
filters, reset both gain computers — the main one with the variability
context — and clear the converged flag); any other category falls through
all branches and changes nothing. -/
def HandleEchoPathChange {σm σs γm γs α : Type}
    (ops : SubtractorOps σm σs γm γs α) (st : Subtractor σm σs γm γs)
    (echo_path_variability : EchoPathVariability) : Subtractor σm σs γm γs :=
  let full_reset : Subtractor σm σs γm γs :=
    { main_filter_ := ops.main.HandleEchoPathChange st.main_filter_
      shadow_filter_ := ops.shadow.HandleEchoPathChange st.shadow_filter_
      G_main_ := ops.G_main.HandleEchoPathChange st.G_main_ echo_path_variability
      G_shadow_ := ops.G_shadow.HandleEchoPathChange st.G_shadow_
      converged_filter_ := false }
  if echo_path_variability.delay_change = DelayAdjustment.kBufferFlush ∨
      echo_path_variability.delay_change = DelayAdjustment.kDelayReset then
    full_reset
  else if echo_path_variability.delay_change =
      DelayAdjustment.kNewDetectedDelay then
    full_reset
  else if echo_path_variability.delay_change =
      DelayAdjustment.kBufferReadjustment then
    full_reset
  else
    st

/-- `std::accumulate(v.begin(), v.end(), 0.f, sum_of_squares)`: left fold
of `a + b*b` over the block. -/
def sumOfSquares (v : Block) : ℚ :=
  (List.finRange kBlockSize).foldl (fun a i => a + v i * v i) 0

/-- The body of `Subtractor::Process` from `subtractor.cc`, after the
capture-length check: main path (filter, prediction error with echo
estimate, windowed and rectangular forward transforms), shadow path
(filter, prediction error without echo estimate, windowed forward
transform into a local `E_shadow`), the convergence check gated on the
flag being false and on `y2 > kBlockSize * 50 * 50`, the three power
spectra, then the main gain computation and adaptation followed by the
shadow gain computation — re-querying the spectral sum when the partition
counts differ — and shadow adaptation.  Returns the new state and the
updated caller-owned output record. -/
def ProcessBody {σm σs γm γs α : Type}
    (ops : SubtractorOps σm σs γm γs α) (st : Subtractor σm σs γm γs)
    (render_buffer : RenderBuffer) (y : Block) (render_signal_analyzer : α)
    (saturated_capture : Bool) (output : SubtractorOutput) :
    Subtractor σm σs γm γs × SubtractorOutput :=
  let S_main := ops.main.Filter st.main_filter_ render_buffer
  let peMain := PredictionError ops.fft S_main y true
  let e_main := peMain.1
  let s_main := peMain.2.getD output.s_main
  let E_main := ops.fft.ZeroPaddedFft e_main Window.kHanning
  let E_main_nonwindowed := ops.fft.ZeroPaddedFft e_main Window.kRectangular
  let S_shadow := ops.shadow.Filter st.shadow_filter_ render_buffer
  let e_shadow := (PredictionError ops.fft S_shadow y false).1
  let E_shadow := ops.fft.ZeroPaddedFft e_shadow Window.kHanning
  let converged : Bool :=
    if st.converged_filter_ then st.converged_filter_
    else
      let e2_main := sumOfSquares e_main
      let e2_shadow := sumOfSquares e_shadow
      let y2 := sumOfSquares y
      if y2 > (kBlockSize : ℚ) * 50 * 50 then
        decide (e2_main > 3 / 10 * y2) || decide (e2_shadow > 1 / 10 * y2)
      else
        st.converged_filter_
  let output1 : SubtractorOutput :=
    { output with
      s_main := s_main
      e_main := e_main
      e_shadow := e_shadow
      E_main := E_main
      E_main_nonwindowed := E_main_nonwindowed
      E2_main := fftSpectrum E_main
      E2_main_nonwindowed := fftSpectrum E_main_nonwindowed
      E2_shadow := fftSpectrum E_shadow }
  let X2 := render_buffer.SpectralSum (ops.main.SizePartitions st.main_filter_)
  let gm := ops.G_main.Compute st.G_main_ X2 render_signal_analyzer output1
    st.main_filter_ saturated_capture
  let main_filter' := ops.main.Adapt st.main_filter_ render_buffer gm.2
  let X2s :=
    if ops.shadow.SizePartitions st.shadow_filter_ ≠
        ops.main.SizePartitions main_filter' then
      render_buffer.SpectralSum (ops.shadow.SizePartitions st.shadow_filter_)
    else
      X2
  let gs := ops.G_shadow.Compute st.G_shadow_ X2s render_signal_analyzer
    E_shadow (ops.shadow.SizePartitions st.shadow_filter_) saturated_capture
  let shadow_filter' := ops.shadow.Adapt st.shadow_filter_ render_buffer gs.2
  (⟨main_filter', shadow_filter', gm.1, gs.1, converged⟩, output1)

/-- `Subtractor::Process`: the entry point takes the capture block as a
runtime-length view and opens with `RTC_DCHECK_EQ(kBlockSize,
capture.size())`; the fatal check is modelled as `none`, and a valid call
runs `ProcessBody` on the block. -/
def Process {σm σs γm γs α : Type}
    (ops : SubtractorOps σm σs γm γs α) (st : Subtractor σm σs γm γs)
    (render_buffer : RenderBuffer) (capture : List ℚ)
    (render_signal_analyzer : α) (saturated_capture : Bool)
    (output : SubtractorOutput) :
    Option (Subtractor σm σs γm γs × SubtractorOutput) :=
  if h : capture.length = kBlockSize then
    some (ProcessBody ops st render_buffer
      (fun i => capture.get (Fin.cast h.symm i)) render_signal_analyzer
      saturated_capture output)
  else
    none

/-- One call into the subtractor's public interface: either a (well-formed)
`Process` call or a `HandleEchoPathChange` call. -/
inductive SubCall (α : Type) where
  | process (render_buffer : RenderBuffer) (y : Block)
      (render_signal_analyzer : α) (saturated_capture : Bool)
      (output : SubtractorOutput)
  | handleEchoPathChange (v : EchoPathVariability)

/-- The state reached after one interface call. -/
def stepCall {σm σs γm γs α : Type} (ops : SubtractorOps σm σs γm γs α)
    (st : Subtractor σm σs γm γs) : SubCall α → Subtractor σm σs γm γs
  | .process rb y rsa sat out => (ProcessBody ops st rb y rsa sat out).1
  | .handleEchoPathChange v => HandleEchoPathChange ops st v

/-- The state reached after a sequence of interface calls. -/
def runCalls {σm σs γm γs α : Type} (ops : SubtractorOps σm σs γm γs α)
    (st : Subtractor σm σs γm γs) (calls : List (SubCall α)) :
    Subtractor σm σs γm γs :=
  calls.foldl (stepCall ops) st

/-- The all-zero spectrum value. -/
def zeroFftData : FftData := ⟨fun _ => 0, fun _ => 0⟩

/-- The all-zero time block. -/
def zeroBlock : Block := fun _ => 0

/-- A concrete transform whose inverse transform returns the constant
buffer 128, used to exercise the scaling of `PredictionError`. -/
def cexFft : Aec3Fft := ⟨fun _ => fun _ => 128, fun _ _ => zeroFftData⟩

/-- The all-zero power spectrum. -/
def zeroPowerSpec : PowerSpec := fun _ => 0

/-- A transform returning zero everywhere. -/
def zeroAec3Fft : Aec3Fft := ⟨fun _ => fun _ => 0, fun _ _ => zeroFftData⟩

/-- The all-one (real part) spectrum value. -/
def oneFftData : FftData := ⟨fun _ => 1, fun _ => 0⟩

/-- A marker spectrum value with real part 7. -/
def sevenFftData : FftData := ⟨fun _ => 7, fun _ => 0⟩

/-- An all-zero output record, as a caller might pass it in. -/
def emptyOutput : SubtractorOutput :=
  ⟨zeroBlock, zeroBlock, zeroBlock, zeroFftData, zeroFftData, zeroFftData,
    zeroPowerSpec, zeroPowerSpec, zeroPowerSpec⟩

/-- A concrete collaborator bundle over `ℕ` states: filters count their
adaptations and report their state as their partition count, gain
computers return zero gains, the analyzer is trivial. -/
def natOps : SubtractorOps ℕ ℕ ℕ ℕ Unit :=
  { fft := zeroAec3Fft
    main := ⟨fun _ _ => zeroFftData, fun n _ _ => n + 1, fun _ => 0, fun n => n⟩
    shadow := ⟨fun _ _ => zeroFftData, fun n _ _ => n + 1, fun _ => 0, fun n => n⟩
    G_main := ⟨fun g _ _ _ _ _ => (g, zeroFftData), fun g _ => g + 1⟩
    G_shadow := ⟨fun g _ _ _ _ _ => (g, zeroFftData), fun g => g⟩ }

/-- A concrete render buffer whose spectral sum depends on the queried
partition count, so differing counts are distinguishable. -/
def rbLinear : RenderBuffer := ⟨fun n => fun _ => (n : ℚ)⟩

/-- A concrete subtractor state with the converged flag false. -/
def stZero : Subtractor ℕ ℕ ℕ ℕ := ⟨0, 0, 0, 0, false⟩

/-- A concrete subtractor state with the converged flag true. -/
def stTrue : Subtractor ℕ ℕ ℕ ℕ := ⟨4, 2, 9, 9, true⟩

/-- A concrete state whose main and shadow filters have different
partition counts (5 and 3 under `natOps`). -/
def stDiff : Subtractor ℕ ℕ ℕ ℕ := ⟨5, 3, 0, 0, false⟩

/-- A transform whose inverse transform returns the constant buffer
2560000, so the scaled echo estimate is 40000, far outside the clip
range. -/
def bigFft : Aec3Fft := ⟨fun _ => fun _ => 2560000, fun _ _ => zeroFftData⟩

/-- `natOps` driven by the large-valued inverse transform. -/
def bigOps : SubtractorOps ℕ ℕ ℕ ℕ Unit := { natOps with fft := bigFft }

/-- `natOps` with a forward transform returning the all-one spectrum, so
the windowed shadow error spectrum is observably nonzero. -/
def oneWindowOps : SubtractorOps ℕ ℕ ℕ ℕ Unit :=
  { natOps with fft := ⟨fun _ => fun _ => 0, fun _ _ => oneFftData⟩ }

/-- An output record whose `E_shadow` slot holds the marker value 7. -/
def markedOutput : SubtractorOutput := { emptyOutput with E_shadow := sevenFftData }

end Aec3

namespace Aec3

/-- C3: For every input to the prediction-error stage — any frequency-domain
estimate `S` and any capture block `y`, of arbitrarily large magnitude (and
any inverse-transform behaviour) — every sample of the produced error block
`e` lies in the closed range [−32768, 32767]. -/
theorem predictionError_output_clipped (fft : Aec3Fft) (S : FftData)
    (y : Block) (want_s : Bool) (i : Fin kBlockSize) :
    -32768 ≤ (PredictionError fft S y want_s).1 i ∧
      (PredictionError fft S y want_s).1 i ≤ 32767 := by
  simp only [PredictionError, SafeClamp]
  split
  · constructor <;> norm_num
  · split
    · constructor <;> norm_num
    · constructor <;> linarith [lt_or_ge (y i - fft.Ifft S (secondHalf i) * kScale) (-32768),
        lt_or_ge (32767 : ℚ) (y i - fft.Ifft S (secondHalf i) * kScale)]

end Aec3

namespace Aec3

/-- C4 counterexample: the code scales the second half of the
inverse-transform buffer by `kScale = 1/kFftLengthBy2 = 1/block_size`, not
by `1/(2×block_size)` as the claim states.  With an inverse transform
returning the constant buffer 128 and a zero capture block, the code
produces `e[0] = -2` and `s[0] = 2`, while the claim predicts `e[0] = -1`
and `s[0] = 1` (the clip is the identity on both, so the pre-clip error is
observable). -/
theorem predictionError_scale_cex :
    (PredictionError cexFft zeroFftData zeroBlock true).1 ⟨0, by decide⟩ ≠
      SafeClamp (zeroBlock ⟨0, by decide⟩ -
        cexFft.Ifft zeroFftData (secondHalf ⟨0, by decide⟩) *
          (1 / (2 * (kBlockSize : ℚ)))) (-32768) 32767 ∧
    (PredictionError cexFft zeroFftData zeroBlock true).2 ≠
      some (fun k => (1 / (2 * (kBlockSize : ℚ))) *
        cexFft.Ifft zeroFftData (secondHalf k)) := by
  constructor
  · simp only [PredictionError, SafeClamp, cexFft, zeroBlock, kScale,
      kFftLengthBy2, kBlockSize]
    norm_num
  · intro h
    simp only [PredictionError, if_pos] at h
    have h2 := congrFun (Option.some.inj h) ⟨0, by norm_num [kBlockSize]⟩
    simp only [cexFft, kScale, kFftLengthBy2, kBlockSize] at h2
    norm_num at h2

/-- C4 amended: for every transform, frequency-domain estimate `S` and
capture block `y`, whenever the subtraction result is within the clip
range, the error sample equals `y[i]` minus the corresponding sample of the
second half of the 2×block-size inverse-transform buffer scaled by
`1/block_size` (the code's `kScale = 1/kFftLengthBy2`), and the requested
echo-estimate output receives exactly those `1/block_size`-scaled
second-half samples. -/
theorem predictionError_scale (fft : Aec3Fft) (S : FftData) (y : Block)
    (i : Fin kBlockSize)
    (h1 : -32768 ≤ y i - fft.Ifft S (secondHalf i) * (1 / (kBlockSize : ℚ)))
    (h2 : y i - fft.Ifft S (secondHalf i) * (1 / (kBlockSize : ℚ)) ≤ 32767) :
    (PredictionError fft S y true).1 i =
      y i - fft.Ifft S (secondHalf i) * (1 / (kBlockSize : ℚ)) ∧
    (PredictionError fft S y true).2 =
      some (fun k => (1 / (kBlockSize : ℚ)) * fft.Ifft S (secondHalf k)) := by
  have hs : kScale = 1 / (kBlockSize : ℚ) := by
    simp [kScale, kFftLengthBy2]
  constructor
  · simp only [PredictionError, SafeClamp, hs]
    split
    · linarith
    · split
      · linarith
      · rfl
  · simp only [PredictionError, hs, if_pos]

/-- C4 amended witness at the concrete counterexample input. -/
theorem predictionError_scale_witness :
    (PredictionError cexFft zeroFftData zeroBlock true).1 ⟨0, by decide⟩ =
      zeroBlock ⟨0, by decide⟩ -
        cexFft.Ifft zeroFftData (secondHalf ⟨0, by decide⟩) *
          (1 / (kBlockSize : ℚ)) ∧
    (PredictionError cexFft zeroFftData zeroBlock true).2 =
      some (fun k => (1 / (kBlockSize : ℚ)) *
        cexFft.Ifft zeroFftData (secondHalf k)) :=
  predictionError_scale cexFft zeroFftData zeroBlock ⟨0, by decide⟩
    (by simp only [cexFft, zeroBlock, kBlockSize]; norm_num)
    (by simp only [cexFft, zeroBlock, kBlockSize]; norm_num)

end Aec3

namespace Aec3

/-- Helper: the no-change category falls through every branch of
`HandleEchoPathChange`, so the state is returned unchanged. -/
theorem handle_noChange_eq {σm σs γm γs α : Type}
    (ops : SubtractorOps σm σs γm γs α) (st : Subtractor σm σs γm γs)
    (v : EchoPathVariability) (h : v.delay_change = DelayAdjustment.kNone) :
    HandleEchoPathChange ops st v = st := by
  simp [HandleEchoPathChange, h]

/-- C7: `HandleEchoPathChange` with the "no change" category leaves the
entire subtractor state — both filters, both gain computers and the
converged flag — exactly as it was. -/
theorem handleEchoPathChange_noChange {σm σs γm γs α : Type}
    (ops : SubtractorOps σm σs γm γs α) (st : Subtractor σm σs γm γs)
    (v : EchoPathVariability) (h : v.delay_change = DelayAdjustment.kNone) :
    HandleEchoPathChange ops st v = st :=
  handle_noChange_eq ops st v h

/-- C7 witness: the no-change call at a concrete state is the identity. -/
theorem handleEchoPathChange_noChange_witness :
    HandleEchoPathChange natOps stTrue ⟨DelayAdjustment.kNone⟩ = stTrue :=
  handleEchoPathChange_noChange natOps stTrue ⟨DelayAdjustment.kNone⟩ rfl

/-- C6: for every prior state and every "changed" delay category,
`HandleEchoPathChange` performs the same full reset: both filters reset,
both gain computers reset (the main one with the variability context, the
shadow one without), converged flag cleared. -/
theorem handleEchoPathChange_fullReset {σm σs γm γs α : Type}
    (ops : SubtractorOps σm σs γm γs α) (st : Subtractor σm σs γm γs)
    (v : EchoPathVariability) (h : v.delay_change ≠ DelayAdjustment.kNone) :
    HandleEchoPathChange ops st v =
      { main_filter_ := ops.main.HandleEchoPathChange st.main_filter_
        shadow_filter_ := ops.shadow.HandleEchoPathChange st.shadow_filter_
        G_main_ := ops.G_main.HandleEchoPathChange st.G_main_ v
        G_shadow_ := ops.G_shadow.HandleEchoPathChange st.G_shadow_
        converged_filter_ := false } := by
  obtain ⟨d⟩ := v
  cases d <;> simp_all [HandleEchoPathChange]

/-- C6 witness: the buffer-flush category at a concrete converged state. -/
theorem handleEchoPathChange_fullReset_witness :
    HandleEchoPathChange natOps stTrue ⟨DelayAdjustment.kBufferFlush⟩ =
      { main_filter_ := natOps.main.HandleEchoPathChange stTrue.main_filter_
        shadow_filter_ := natOps.shadow.HandleEchoPathChange stTrue.shadow_filter_
        G_main_ := natOps.G_main.HandleEchoPathChange stTrue.G_main_
          ⟨DelayAdjustment.kBufferFlush⟩
        G_shadow_ := natOps.G_shadow.HandleEchoPathChange stTrue.G_shadow_
        converged_filter_ := false } :=
  handleEchoPathChange_fullReset natOps stTrue ⟨DelayAdjustment.kBufferFlush⟩
    (by decide)

/-- C8: a `Process` call whose capture block does not have exactly
block-size samples trips the fatal `RTC_DCHECK_EQ` precondition, modelled
as `none`: execution halts instead of proceeding. -/
theorem process_capture_length_check {σm σs γm γs α : Type}
    (ops : SubtractorOps σm σs γm γs α) (st : Subtractor σm σs γm γs)
    (render_buffer : RenderBuffer) (capture : List ℚ)
    (render_signal_analyzer : α) (saturated_capture : Bool)
    (output : SubtractorOutput) (h : capture.length ≠ kBlockSize) :
    Process ops st render_buffer capture render_signal_analyzer
      saturated_capture output = none := by
  simp [Process, h]

/-- C8 witness: the empty capture block is rejected. -/
theorem process_capture_length_check_witness :
    Process natOps stZero rbLinear [] () false emptyOutput = none :=
  process_capture_length_check natOps stZero rbLinear [] () false
    emptyOutput (by decide)

end Aec3

namespace Aec3

/-- C1: in a `Process` call entered with the converged flag false, the new
flag value is exactly: capture energy above the floor `kBlockSize·50·50`,
AND (main error energy above `0.3·y2` OR shadow error energy above
`0.1·y2`), where the error blocks are the ones the call writes to the
output record; in particular when `y2` is at or below the floor the flag
is unchanged (stays false) whatever the error energies. -/
theorem process_converged_update {σm σs γm γs α : Type}
    (ops : SubtractorOps σm σs γm γs α) (st : Subtractor σm σs γm γs)
    (render_buffer : RenderBuffer) (y : Block) (render_signal_analyzer : α)
    (saturated_capture : Bool) (output : SubtractorOutput)
    (h : st.converged_filter_ = false) :
    ((ProcessBody ops st render_buffer y render_signal_analyzer
        saturated_capture output).1).converged_filter_ =
      (decide (sumOfSquares y > (kBlockSize : ℚ) * 50 * 50) &&
        (decide (sumOfSquares (ProcessBody ops st render_buffer y
            render_signal_analyzer saturated_capture output).2.e_main >
          3 / 10 * sumOfSquares y) ||
         decide (sumOfSquares (ProcessBody ops st render_buffer y
            render_signal_analyzer saturated_capture output).2.e_shadow >
          1 / 10 * sumOfSquares y))) := by
  simp only [ProcessBody, h]
  by_cases hy : sumOfSquares y > (kBlockSize : ℚ) * 50 * 50
  · simp [hy]
  · simp [hy]

/-- C1 witness: an all-zero capture block at a concrete non-converged
state; the energy floor is not exceeded and the flag stays false. -/
theorem process_converged_update_witness :
    stZero.converged_filter_ = false ∧
    ((ProcessBody natOps stZero rbLinear zeroBlock () false
        emptyOutput).1).converged_filter_ =
      (decide (sumOfSquares zeroBlock > (kBlockSize : ℚ) * 50 * 50) &&
        (decide (sumOfSquares (ProcessBody natOps stZero rbLinear zeroBlock
            () false emptyOutput).2.e_main >
          3 / 10 * sumOfSquares zeroBlock) ||
         decide (sumOfSquares (ProcessBody natOps stZero rbLinear zeroBlock
            () false emptyOutput).2.e_shadow >
          1 / 10 * sumOfSquares zeroBlock))) :=
  ⟨rfl, process_converged_update natOps stZero rbLinear zeroBlock () false
    emptyOutput rfl⟩

end Aec3

namespace Aec3

/-- A `Process` call never clears a converged flag that is already true:
the convergence block is guarded by `if (!converged_filter_)`. -/
theorem processBody_preserves_converged {σm σs γm γs α : Type}
    (ops : SubtractorOps σm σs γm γs α) (st : Subtractor σm σs γm γs)
    (render_buffer : RenderBuffer) (y : Block) (render_signal_analyzer : α)
    (saturated_capture : Bool) (output : SubtractorOutput)
    (h : st.converged_filter_ = true) :
    ((ProcessBody ops st render_buffer y render_signal_analyzer
        saturated_capture output).1).converged_filter_ = true := by
  simp [ProcessBody, h]

/-- C2: the converged flag is sticky per epoch.  Once true, it stays true
over any sequence of interface calls that contains no
`HandleEchoPathChange` with an echo-path-changed delay category; hence a
true→false transition can only come from such a full-reset call. -/
theorem converged_sticky {σm σs γm γs α : Type}
    (ops : SubtractorOps σm σs γm γs α) (st : Subtractor σm σs γm γs)
    (calls : List (SubCall α)) (h : st.converged_filter_ = true)
    (hc : ∀ v : EchoPathVariability, SubCall.handleEchoPathChange v ∈ calls →
      v.delay_change = DelayAdjustment.kNone) :
    (runCalls ops st calls).converged_filter_ = true := by
  induction calls generalizing st with
  | nil => exact h
  | cons c rest ih =>
    have hrest : ∀ v : EchoPathVariability,
        SubCall.handleEchoPathChange v ∈ rest →
        v.delay_change = DelayAdjustment.kNone := by
      intro v hv
      exact hc v (List.mem_cons_of_mem c hv)
    cases c with
    | process rb yb rsa sat out =>
      exact ih (stepCall ops st (SubCall.process rb yb rsa sat out))
        (processBody_preserves_converged ops st rb yb rsa sat out h) hrest
    | handleEchoPathChange v =>
      have hv : v.delay_change = DelayAdjustment.kNone :=
        hc v (List.mem_cons_self _ _)
      have hid : stepCall ops st (SubCall.handleEchoPathChange v) = st := by
        simp only [stepCall]
        exact handle_noChange_eq ops st v hv
      exact ih _ (by rw [hid]; exact h) hrest

/-- C2 witness: a concrete converged state stays converged across a
`Process` call followed by a no-change path-change call. -/
theorem converged_sticky_witness :
    stTrue.converged_filter_ = true ∧
    (runCalls natOps stTrue
      [SubCall.process rbLinear zeroBlock () false emptyOutput,
       SubCall.handleEchoPathChange ⟨DelayAdjustment.kNone⟩]).converged_filter_ =
      true := by
  refine ⟨rfl, converged_sticky natOps stTrue _ rfl ?_⟩
  intro v hv
  simp only [List.mem_cons, List.not_mem_nil, or_false] at hv
  rcases hv with hv | hv
  · exact SubCall.noConfusion hv
  · obtain ⟨rfl⟩ := SubCall.handleEchoPathChange.inj hv
    rfl

end Aec3

namespace Aec3

/-- C5: when, at the shadow-update step, the shadow filter's partition
count differs from the (just-adapted) main filter's partition count, the
shadow gain computation — and hence the shadow filter's adaptation and the
shadow gain computer's new state — uses the render-history power-spectrum
sum queried for the shadow filter's partition count. -/
theorem process_shadow_gain_partitions {σm σs γm γs α : Type}
    (ops : SubtractorOps σm σs γm γs α) (st : Subtractor σm σs γm γs)
    (render_buffer : RenderBuffer) (y : Block) (render_signal_analyzer : α)
    (saturated_capture : Bool) (output : SubtractorOutput)
    (h : ops.shadow.SizePartitions st.shadow_filter_ ≠
      ops.main.SizePartitions ((ProcessBody ops st render_buffer y
        render_signal_analyzer saturated_capture output).1.main_filter_)) :
    (ProcessBody ops st render_buffer y render_signal_analyzer
        saturated_capture output).1.shadow_filter_ =
      ops.shadow.Adapt st.shadow_filter_ render_buffer
        (ops.G_shadow.Compute st.G_shadow_
          (render_buffer.SpectralSum (ops.shadow.SizePartitions st.shadow_filter_))
          render_signal_analyzer
          (ops.fft.ZeroPaddedFft (ProcessBody ops st render_buffer y
            render_signal_analyzer saturated_capture output).2.e_shadow
            Window.kHanning)
          (ops.shadow.SizePartitions st.shadow_filter_) saturated_capture).2 ∧
    (ProcessBody ops st render_buffer y render_signal_analyzer
        saturated_capture output).1.G_shadow_ =
      (ops.G_shadow.Compute st.G_shadow_
        (render_buffer.SpectralSum (ops.shadow.SizePartitions st.shadow_filter_))
        render_signal_analyzer
        (ops.fft.ZeroPaddedFft (ProcessBody ops st render_buffer y
          render_signal_analyzer saturated_capture output).2.e_shadow
          Window.kHanning)
        (ops.shadow.SizePartitions st.shadow_filter_) saturated_capture).1 := by
  simp only [ProcessBody] at h ⊢
  rw [if_pos h]
  exact ⟨rfl, rfl⟩

/-- C5 witness: under `natOps` the main filter's count after adaptation is
6 while the shadow filter's is 3, and `rbLinear` makes the two spectral
sums distinguishable. -/
theorem process_shadow_gain_partitions_witness :
    natOps.shadow.SizePartitions stDiff.shadow_filter_ ≠
      natOps.main.SizePartitions ((ProcessBody natOps stDiff rbLinear
        zeroBlock () false emptyOutput).1.main_filter_) ∧
    (ProcessBody natOps stDiff rbLinear zeroBlock () false
        emptyOutput).1.shadow_filter_ =
      natOps.shadow.Adapt stDiff.shadow_filter_ rbLinear
        (natOps.G_shadow.Compute stDiff.G_shadow_
          (rbLinear.SpectralSum (natOps.shadow.SizePartitions stDiff.shadow_filter_))
          ()
          (natOps.fft.ZeroPaddedFft (ProcessBody natOps stDiff rbLinear
            zeroBlock () false emptyOutput).2.e_shadow Window.kHanning)
          (natOps.shadow.SizePartitions stDiff.shadow_filter_) false).2 :=
  ⟨by decide,
    (process_shadow_gain_partitions natOps stDiff rbLinear zeroBlock ()
      false emptyOutput (by decide)).1⟩

end Aec3

namespace Aec3

/-- C9 counterexample: `Process` keeps the shadow filter's windowed error
spectrum in a local `FftData E_shadow` and never stores it in the output
record, so after a call in which the caller's `E_shadow` slot held the
marker value 7 while the forward transform produces the all-one spectrum,
the output record does not contain the shadow windowed error spectrum. -/
theorem process_EShadow_not_written_cex :
    (ProcessBody oneWindowOps stZero rbLinear zeroBlock () false
        markedOutput).2.E_shadow ≠
      oneWindowOps.fft.ZeroPaddedFft
        (ProcessBody oneWindowOps stZero rbLinear zeroBlock () false
          markedOutput).2.e_shadow Window.kHanning := by
  intro h
  have h0 := congrArg (fun X => X.re ⟨0, by decide⟩) h
  simp only [ProcessBody, markedOutput, emptyOutput, oneWindowOps, natOps,
    sevenFftData, oneFftData] at h0
  norm_num at h0

/-- C9 amended: on every `Process` call the shadow filter's windowed error
spectrum is computed into a call-local value; the output record receives
only its power spectrum (`output.E2_shadow`), while the record's
`E_shadow` slot is left exactly as the caller passed it in. -/
theorem process_EShadow_local {σm σs γm γs α : Type}
    (ops : SubtractorOps σm σs γm γs α) (st : Subtractor σm σs γm γs)
    (render_buffer : RenderBuffer) (y : Block) (render_signal_analyzer : α)
    (saturated_capture : Bool) (output : SubtractorOutput) :
    (ProcessBody ops st render_buffer y render_signal_analyzer
        saturated_capture output).2.E_shadow = output.E_shadow ∧
    (ProcessBody ops st render_buffer y render_signal_analyzer
        saturated_capture output).2.E2_shadow =
      fftSpectrum (ops.fft.ZeroPaddedFft
        (ProcessBody ops st render_buffer y render_signal_analyzer
          saturated_capture output).2.e_shadow Window.kHanning) := by
  constructor <;> simp only [ProcessBody]

/-- C10: the clip is applied only to the error block, never to the echo
estimate: with an inverse transform returning the constant buffer 2560000
and a zero capture block, the emitted `output.s_main` holds 40000, outside
[−32768, 32767], while the matching error sample is clamped to −32768. -/
theorem process_sMain_not_clipped :
    (ProcessBody bigOps stZero rbLinear zeroBlock () false
        emptyOutput).2.s_main ⟨0, by decide⟩ = 40000 ∧
    ¬((40000 : ℚ) ≤ 32767) ∧
    (ProcessBody bigOps stZero rbLinear zeroBlock () false
        emptyOutput).2.e_main ⟨0, by decide⟩ = -32768 := by
  refine ⟨?_, by norm_num, ?_⟩
  · simp only [ProcessBody, PredictionError, bigOps, natOps, bigFft,
      zeroBlock, kScale, kFftLengthBy2, kBlockSize, Option.getD]
    norm_num
  · simp only [ProcessBody, PredictionError, SafeClamp, bigOps, natOps,
      bigFft, zeroBlock, kScale, kFftLengthBy2, kBlockSize]
    norm_num

end Aec3
